import Mathlib

/-
Shallow embedding of the go-redfish-server repository (a Redfish-style
REST management server written in Go) together with proofs about its
query-parameter engine, task lifecycle, authentication/session store,
conditional-request (ETag) layer, event-subscription handlers and
routing/authentication-exemption table.

Each definition mirrors one Go function or data type of the repository;
the Go file and symbol are named in the doc comment.  Machine integers of
the Go code that are known non-negative at the modelled call sites
(lengths, parsed query values, percentages) are modelled as Nat, except
where the Go code can be handed a negative value (percent-complete),
where Int is used.  Randomness (session tokens, task identifiers) and
wall-clock timestamps are externalized as explicit arguments.
-/

set_option maxRecDepth 8000

namespace Redfish

/-- Whether the needle occurs as a contiguous run inside the haystack
(second argument), scanning left to right. -/
def charsContain (needle : List Char) : List Char → Bool
  | [] => needle.isEmpty
  | c :: cs => needle.isPrefixOf (c :: cs) || charsContain needle cs

/-- Go strings.Contains: the pattern occurs as a contiguous substring. -/
def strContains (s pat : String) : Bool :=
  charsContain pat.toList s.toList

/-- QueryParameters struct of the server package (part_004, lines 1557-1565):
parsed OData query parameters.  parseQueryParameters guarantees top and
skip are non-negative, so they are modelled as Nat; the Go zero value 0
stands both for an omitted parameter and for an explicit 0. -/
structure QueryParameters where
  top : Nat
  skip : Nat
  selectFields : List String
  expandFields : List String
  filter : String
  orderBy : String
  deriving Repr, DecidableEq

/-- ComputerSystemCollection (internal/models): the Members list (each
member modelled by its odata.id string) and the Members-odata.count
field. -/
structure ComputerSystemCollection where
  members : List String
  membersODataCount : Nat
  deriving Repr, DecidableEq

/-- NewComputerSystemCollection (internal/models/computersystem.go):
the seeded collection has exactly one member with identifier 1. -/
def NewComputerSystemCollection : ComputerSystemCollection :=
  { members := ["/redfish/v1/Systems/1"], membersODataCount := 1 }

/-- applyFilterToSystems (part_004, lines 1640-1657): a filter string
containing a recognized PowerState-eq-On pattern keeps all members, one
containing a PowerState-eq-Off pattern empties the member list (the
seeded demo system is On); any other string leaves the collection
unchanged.  Matching uses strings.Contains. -/
def applyFilterToSystems (collection : ComputerSystemCollection) (filter : String) :
    ComputerSystemCollection :=
  if strContains filter "PowerState eq 'On'" || strContains filter "PowerState eq \"On\"" then
    collection
  else if strContains filter "PowerState eq 'Off'" || strContains filter "PowerState eq \"Off\"" then
    { collection with members := [], membersODataCount := 0 }
  else
    collection

/-- applyQueryParametersToSystems (part_004, lines 1609-1637): first the
filter reduces the member set, then skip/top slice it.  The Go slice
result.Members[start:end] is modelled as drop start followed by
take (end - start).  The nil-params fast path of the Go code (return the
collection unchanged) is not modelled: the handlers always pass a parsed
parameter record. -/
def applyQueryParametersToSystems (collection : ComputerSystemCollection)
    (params : QueryParameters) : ComputerSystemCollection :=
  let result := if params.filter ≠ "" then applyFilterToSystems collection params.filter
    else collection
  let totalMembers := result.members.length
  let start := if params.skip > totalMembers then totalMembers else params.skip
  let stop := if 0 < params.top ∧ start + params.top < totalMembers then start + params.top
    else totalMembers
  let sliced := (result.members.drop start).take (stop - start)
  { result with members := sliced, membersODataCount := sliced.length }

/-- Query-parameter record carrying only pagination values, all other
parameters empty (as for a request URL that supplies only top and
skip). -/
def paginationOnly (t s : Nat) : QueryParameters :=
  { top := t, skip := s, selectFields := [], expandFields := [], filter := "", orderBy := "" }

/-- The four filter strings recognized by applyFilterToSystems. -/
def recognizedFilterPatterns : List String :=
  ["PowerState eq 'On'", "PowerState eq \"On\"", "PowerState eq 'Off'", "PowerState eq \"Off\""]

/-- Message (internal/models/common.go, lines 91-96). -/
structure Message where
  messageId : String
  message : String
  severity : String
  resolution : String
  deriving Repr, DecidableEq

/-- Task (internal/models/task.go, lines 48-62): the mutable lifecycle
fields.  Timestamps are opaque strings (Go formats time.Now with
RFC3339); the static odata/TaskMonitor/Payload link fields, which are
plain functions of the identifier, are represented by the identifier
itself. -/
structure Task where
  id : String
  taskState : String
  taskStatus : String
  startTime : String
  endTime : String
  percentComplete : Int
  messages : List Message
  deriving Repr, DecidableEq

/-- NewTask (task.go, lines 84-109): a fresh task starts in state New
with status OK, start time now, zero percent complete and no
messages. -/
def NewTask (id now : String) : Task :=
  { id := id, taskState := "New", taskStatus := "OK", startTime := now, endTime := "",
    percentComplete := 0, messages := [] }

/-- UpdateTaskState (task.go, lines 112-126): sets the new state
unconditionally; entering Running backfills an empty start time,
entering a terminal state (Completed, Cancelled, Exception) sets the end
time and, for Completed, forces percent complete to 100.  No guard
restricts which source states may move to a terminal state. -/
def UpdateTaskState (t : Task) (newState now : String) : Task :=
  let t1 := { t with taskState := newState }
  if newState = "Running" then
    (if t1.startTime = "" then { t1 with startTime := now } else t1)
  else if newState = "Completed" ∨ newState = "Cancelled" ∨ newState = "Exception" then
    let t2 := { t1 with endTime := now }
    (if newState = "Completed" then { t2 with percentComplete := 100 } else t2)
  else t1

/-- SetPercentComplete (task.go, lines 134-138): clamps by ignoring
out-of-range values. -/
def SetPercentComplete (t : Task) (percent : Int) : Task :=
  if 0 ≤ percent ∧ percent ≤ 100 then { t with percentComplete := percent } else t

/-- AddMessage (task.go, lines 129-131). -/
def AddMessage (t : Task) (m : Message) : Task :=
  { t with messages := t.messages ++ [m] }

/-- The global tasks map of the server package (part_004, lines 22-26),
task id to task; Go map assignment is modelled by prepending (lookup
finds the newest binding). -/
abbrev TaskStore := List (String × Task)

/-- The ResetType allow-list of handleComputerSystemReset (part_004,
lines 1072-1081). -/
def validResetTypes : List String :=
  ["On", "ForceOff", "ForceRestart", "Nmi", "PushPowerButton", "GracefulRestart",
   "GracefulShutdown", "ForceOn"]

/-- Outcome of an action POST: a Redfish error envelope (code and HTTP
status), or 202 Accepted with the Location of the created task. -/
inductive ResetOutcome where
  | redfishError (code : String) (status : Nat)
  | accepted (location : String)
  deriving Repr, DecidableEq

/-- handleComputerSystemReset (part_004, lines 1060-1134), after JSON
decoding: resetType is the decoded ResetType field (the empty string
when the parameter, or the whole body, is omitted); taskId is the
md5-derived fresh task identifier and now the wall clock, both
externalized.  An omitted ResetType defaults to On before validation; a
value outside validResetTypes yields the InvalidParameter error with
HTTP 400 and leaves the task store untouched; otherwise a task in state
New is stored under taskId and 202 Accepted is returned with the task
location.  The worker goroutine the handler spawns is modelled
separately by resetWorker. -/
def handleComputerSystemReset (tasks : TaskStore) (resetType taskId now : String) :
    ResetOutcome × TaskStore :=
  let rt := if resetType = "" then "On" else resetType
  if rt ∈ validResetTypes then
    (ResetOutcome.accepted ("/redfish/v1/TaskService/Tasks/" ++ taskId),
      (taskId, NewTask taskId now) :: tasks)
  else
    (ResetOutcome.redfishError "InvalidParameter" 400, tasks)

/-- The body of the worker goroutine spawned by handleComputerSystemReset
(part_004, lines 1100-1112): after the simulated delay it applies, under
the task mutex, UpdateTaskState Completed, SetPercentComplete 100 and
AddMessage with the success message.  It makes exactly one state
transition, directly to Completed. -/
def resetWorker (t : Task) (now : String) (m : Message) : Task :=
  AddMessage (SetPercentComplete (UpdateTaskState t "Completed" now) 100) m

/-- The sequence of states a reset-action task passes through: its state
at creation followed by its state after each UpdateTaskState call made
by the worker goroutine (the worker makes exactly one such call, with
argument Completed). -/
def resetTaskStateTrace (taskId now1 now2 : String) : List String :=
  let t0 := NewTask taskId now1
  let t1 := UpdateTaskState t0 "Completed" now2
  [t0.taskState, t1.taskState]

/-- Session (part_007, lines 20-25).  The created and expires timestamps
are opaque strings; the expiry check in ValidateSessionToken is present
but commented out in the source. -/
structure Session where
  token : String
  username : String
  created : String
  expires : String
  deriving Repr, DecidableEq

/-- The sessions map of AuthService (part_007, line 30), token to
session: Go map assignment is modelled by prepending (lookup finds the
newest binding), Go delete by removing every binding of the key. -/
abbrev SessionStore := List (String × Session)

/-- AuthService.CreateSession (part_007, lines 75-96): records a session
for the user under a freshly generated token and returns the token.  The
32-byte cryptographically random hex token and the two timestamps are
externalized as arguments. -/
def CreateSession (sessions : SessionStore) (username token now expiry : String) :
    String × SessionStore :=
  (token,
    (token, { token := token, username := username, created := now, expires := expiry })
      :: sessions)

/-- AuthService.ValidateSessionToken (part_007, lines 99-120): looks the
token up in the sessions map; an absent token yields the empty username
and false.  The expiry check is commented out in the source, so any
found session validates. -/
def ValidateSessionToken (sessions : SessionStore) (token : String) : String × Bool :=
  match sessions.lookup token with
  | some s => (s.username, true)
  | none => ("", false)

/-- AuthService.DeleteSession (part_007, lines 123-127): Go delete on
the sessions map; deleting an absent token is a no-op. -/
def DeleteSession (sessions : SessionStore) (token : String) : SessionStore :=
  sessions.filter (fun p => p.1 != token)

/-- Outcome of the individual-session handler. -/
inductive SessionItemOutcome where
  | redfishError (code : String) (status : Nat)
  | sessionDoc (username : String)
  | noContent
  deriving Repr, DecidableEq

/-- sessionItemHandler with handleGetSession and handleDeleteSession
(part_004, lines 578-632): the token taken from the URL is first looked
up, and an unknown token yields the ResourceNotFound error with HTTP 404
for every method.  For a known token, GET returns the session document
(HTTP 200), DELETE removes the session and returns 204 No Content, and
any other method yields MethodNotAllowed 405. -/
def sessionItemHandler (sessions : SessionStore) (method sessionId : String) :
    SessionItemOutcome × SessionStore :=
  if (ValidateSessionToken sessions sessionId).2 = false then
    (SessionItemOutcome.redfishError "ResourceNotFound" 404, sessions)
  else if method = "GET" then
    (SessionItemOutcome.sessionDoc (ValidateSessionToken sessions sessionId).1, sessions)
  else if method = "DELETE" then
    (SessionItemOutcome.noContent, DeleteSession sessions sessionId)
  else
    (SessionItemOutcome.redfishError "MethodNotAllowed" 405, sessions)

/-- The publicPaths list of requiresAuth
(internal/middleware/cors.go, lines 72-91). -/
def publicPaths : List String :=
  ["/health", "/redfish/v1/", "/redfish/v1/$metadata", "/redfish/v1/odata",
   "/redfish/v1/SessionService", "/redfish/v1/SessionService/Sessions"]

/-- requiresAuth (cors.go, lines 72-91): the request path is compared by
exact string equality against each entry of publicPaths; every other
path requires authentication. -/
def requiresAuth (path : String) : Bool :=
  if path ∈ publicPaths then false else true

/-- Truncation to a 32-bit word, modelling Go uint32 arithmetic inside
crypto/md5. -/
def w32 (n : Nat) : Nat := n % 4294967296

/-- 32-bit left rotation. -/
def rotl32 (x s : Nat) : Nat :=
  w32 (x <<< s) ||| (x >>> (32 - s))

/-- The four MD5 auxiliary bit functions (RFC 1321), on 32-bit words;
bitwise complement is xor with the all-ones word. -/
def mdF (b c d : Nat) : Nat := (b &&& c) ||| ((b ^^^ 4294967295) &&& d)

def mdG (b c d : Nat) : Nat := (d &&& b) ||| ((d ^^^ 4294967295) &&& c)

def mdH (b c d : Nat) : Nat := b ^^^ c ^^^ d

def mdI (b c d : Nat) : Nat := c ^^^ (b ||| (d ^^^ 4294967295))

/-- The 64 MD5 sine-derived round constants. -/
def md5K : List Nat :=
  [0xd76aa478, 0xe8c7b756, 0x242070db, 0xc1bdceee,
   0xf57c0faf, 0x4787c62a, 0xa8304613, 0xfd469501,
   0x698098d8, 0x8b44f7af, 0xffff5bb1, 0x895cd7be,
   0x6b901122, 0xfd987193, 0xa679438e, 0x49b40821,
   0xf61e2562, 0xc040b340, 0x265e5a51, 0xe9b6c7aa,
   0xd62f105d, 0x02441453, 0xd8a1e681, 0xe7d3fbc8,
   0x21e1cde6, 0xc33707d6, 0xf4d50d87, 0x455a14ed,
   0xa9e3e905, 0xfcefa3f8, 0x676f02d9, 0x8d2a4c8a,
   0xfffa3942, 0x8771f681, 0x6d9d6122, 0xfde5380c,
   0xa4beea44, 0x4bdecfa9, 0xf6bb4b60, 0xbebfbc70,
   0x289b7ec6, 0xeaa127fa, 0xd4ef3085, 0x04881d05,
   0xd9d4d039, 0xe6db99e5, 0x1fa27cf8, 0xc4ac5665,
   0xf4292244, 0x432aff97, 0xab9423a7, 0xfc93a039,
   0x655b59c3, 0x8f0ccc92, 0xffeff47d, 0x85845dd1,
   0x6fa87e4f, 0xfe2ce6e0, 0xa3014314, 0x4e0811a1,
   0xf7537e82, 0xbd3af235, 0x2ad7d2bb, 0xeb86d391]

/-- The 64 MD5 per-round left-rotation amounts. -/
def md5S : List Nat :=
  [7, 12, 17, 22, 7, 12, 17, 22, 7, 12, 17, 22, 7, 12, 17, 22,
   5, 9, 14, 20, 5, 9, 14, 20, 5, 9, 14, 20, 5, 9, 14, 20,
   4, 11, 16, 23, 4, 11, 16, 23, 4, 11, 16, 23, 4, 11, 16, 23,
   6, 10, 15, 21, 6, 10, 15, 21, 6, 10, 15, 21, 6, 10, 15, 21]

/-- k little-endian bytes of n. -/
def toLEBytes : Nat → Nat → List Nat
  | 0, _ => []
  | k + 1, n => (n % 256) :: toLEBytes k (n / 256)

/-- MD5 padding: append the 0x80 byte, zero bytes up to 56 mod 64, then
the original length in bits as 8 little-endian bytes. -/
def padMessage (msg : List Nat) : List Nat :=
  let padZeros := (120 - (msg.length + 1) % 64) % 64
  msg ++ [0x80] ++ List.replicate padZeros 0 ++ toLEBytes 8 (8 * msg.length)

/-- A little-endian 32-bit word from four bytes. -/
def leWord (b0 b1 b2 b3 : Nat) : Nat :=
  b0 + 256 * b1 + 65536 * b2 + 16777216 * b3

/-- The sixteen little-endian words of a 64-byte chunk. -/
def chunkWords : List Nat → List Nat
  | b0 :: b1 :: b2 :: b3 :: rest => leWord b0 b1 b2 b3 :: chunkWords rest
  | _ => []

/-- One MD5 round: the working state is (a, b, c, d), m the sixteen
message words of the chunk, i the round index 0..63. -/
def md5Round (m : List Nat) (st : Nat × Nat × Nat × Nat) (i : Nat) :
    Nat × Nat × Nat × Nat :=
  let a := st.1
  let b := st.2.1
  let c := st.2.2.1
  let d := st.2.2.2
  let f :=
    if i < 16 then mdF b c d
    else if i < 32 then mdG b c d
    else if i < 48 then mdH b c d
    else mdI b c d
  let g :=
    if i < 16 then i
    else if i < 32 then (5 * i + 1) % 16
    else if i < 48 then (3 * i + 5) % 16
    else (7 * i) % 16
  let tmp := w32 (f + a + md5K.getD i 0 + m.getD g 0)
  (d, w32 (b + rotl32 tmp (md5S.getD i 0)), b, c)

/-- MD5 compression of one 64-byte chunk into the running state. -/
def md5Compress (st : Nat × Nat × Nat × Nat) (chunk : List Nat) :
    Nat × Nat × Nat × Nat :=
  let m := chunkWords chunk
  let r := (List.range 64).foldl (md5Round m) st
  (w32 (st.1 + r.1), w32 (st.2.1 + r.2.1), w32 (st.2.2.1 + r.2.2.1), w32 (st.2.2.2 + r.2.2.2))

/-- MD5 of a byte sequence (crypto/md5 Sum): pad, then compress the
64-byte chunks in order starting from the standard initial state, and
emit the four state words little-endian. -/
def md5Bytes (msg : List Nat) : List Nat :=
  let padded := padMessage msg
  let final := (List.range (padded.length / 64)).foldl
    (fun st i => md5Compress st ((padded.drop (64 * i)).take 64))
    (0x67452301, 0xefcdab89, 0x98badcfe, 0x10325476)
  toLEBytes 4 final.1 ++ toLEBytes 4 final.2.1 ++ toLEBytes 4 final.2.2.1 ++
    toLEBytes 4 final.2.2.2

/-- Lower-case hexadecimal digit. -/
def hexDigit (n : Nat) : Char :=
  if n < 10 then Char.ofNat (48 + n) else Char.ofNat (87 + n)

/-- Go fmt Sprintf with the x verb on an md5 sum: the 32-character
lower-case hex rendering of the 16 digest bytes. -/
def md5hex (msg : List Nat) : String :=
  String.mk (((md5Bytes msg).map (fun b => [hexDigit (b / 16), hexDigit (b % 16)])).flatten)

/-- generateETag (part_004, lines 1514-1520): the ETag of a resource is
the first 8 hex characters of the md5 of its JSON serialization, wrapped
in double quotes.  The serialized bytes are the function's input (Go
json.Marshal is a fixed pure function of the document). -/
def generateETag (jsonBytes : List Nat) : String :=
  "\"" ++ (md5hex jsonBytes).take 8 ++ "\""

/-- normalizeETag (part_004, lines 1523-1528): strips one pair of
surrounding double quotes when the string has length at least 2 and both
ends are quotes; otherwise returns the string unchanged.  Go indexes
bytes; the modelled strings are ASCII so characters coincide. -/
def normalizeETag (etag : String) : String :=
  let cs := etag.toList
  if 2 ≤ cs.length ∧ cs.getD 0 ' ' = '"' ∧ cs.getD (cs.length - 1) ' ' = '"' then
    String.mk (cs.drop 1).dropLast
  else etag

/-- ComputerSystem (internal/models/computersystem.go): the document
fields populated by NewComputerSystem.  The Go float64 memory size 16.0
is modelled by the integer 16 (it is never computed with). -/
structure ComputerSystemDoc where
  odataContext : String
  odataId : String
  odataType : String
  id : String
  name : String
  systemType : String
  powerState : String
  statusState : String
  statusHealth : String
  bootSourceOverrideEnabled : String
  bootSourceOverrideTarget : String
  processorCount : Nat
  totalSystemMemoryGiB : Nat
  processors : String
  memory : String
  logServices : String
  managedBy : List String
  resetTarget : String
  deriving Repr, DecidableEq

/-- NewComputerSystem (computersystem.go, lines 86-138): the projected
document for a given identifier; every field is a pure function of the
identifier, the power state of the demo system is On. -/
def NewComputerSystem (id : String) : ComputerSystemDoc :=
  { odataContext := "/redfish/v1/$metadata#ComputerSystem.ComputerSystem"
    odataId := "/redfish/v1/Systems/" ++ id
    odataType := "#ComputerSystem.v1_20_0.ComputerSystem"
    id := id
    name := "Computer System"
    systemType := "Physical"
    powerState := "On"
    statusState := "Enabled"
    statusHealth := "OK"
    bootSourceOverrideEnabled := "Once"
    bootSourceOverrideTarget := "None"
    processorCount := 1
    totalSystemMemoryGiB := 16
    processors := "/redfish/v1/Systems/" ++ id ++ "/Processors"
    memory := "/redfish/v1/Systems/" ++ id ++ "/Memory"
    logServices := "/redfish/v1/Systems/" ++ id ++ "/LogServices"
    managedBy := ["/redfish/v1/Managers/1"]
    resetTarget := "/redfish/v1/Systems/" ++ id ++ "/Actions/ComputerSystem.Reset" }

/-- Outcome of a GET on an individual computer system. -/
inductive GetSystemOutcome where
  | redfishError (code : String) (status : Nat)
  | notModified (etagHeader : String)
  | ok (etagHeader : String) (body : ComputerSystemDoc)
  deriving Repr, DecidableEq

/-- handleGetSystem (part_004, lines 935-971) for a request without
select or expand parameters (those branches only run when the query
supplies them): the document for the requested identifier is projected
unconditionally (there is no membership check and no not-found branch),
its ETag computed over the JSON serialization enc (externalizing Go
json.Marshal) and set as a header; when the If-None-Match header is
non-empty and, after normalization, equals the ETag, or is the literal
wildcard asterisk, the handler replies 304 Not Modified with an empty
body, otherwise 200 with the full document. -/
def handleGetSystem (enc : ComputerSystemDoc → List Nat) (id ifNoneMatch : String) :
    GetSystemOutcome :=
  let system := NewComputerSystem id
  let etag := generateETag (enc system)
  if ifNoneMatch ≠ "" then
    if normalizeETag ifNoneMatch = normalizeETag etag ∨ ifNoneMatch = "*" then
      GetSystemOutcome.notModified etag
    else
      GetSystemOutcome.ok etag system
  else
    GetSystemOutcome.ok etag system

/-- The ETag header carried by each outcome of handleGetSystem (the
handler sets the header before the conditional check, so every branch
carries it). -/
def etagHeaderOf : GetSystemOutcome → String
  | GetSystemOutcome.redfishError _ _ => ""
  | GetSystemOutcome.notModified e => e
  | GetSystemOutcome.ok e _ => e

/-- EventSubscription (part_005, lines 113-133): the fields populated by
the creation flow (EventDestination resource). -/
structure EventSubscription where
  id : String
  name : String
  odataId : String
  destination : String
  protocol : String
  context : String
  registryPrefixes : List String
  resourceTypes : List String
  severities : List String
  includeOriginOfCondition : Bool
  subordinateResources : Bool
  subscriptionType : String
  eventFormatType : String
  statusState : String
  statusHealth : String
  deriving Repr, DecidableEq

/-- NewEventSubscription (part_005, lines 142-165). -/
def NewEventSubscription (id destination protocol : String) : EventSubscription :=
  { id := id
    name := "Event Subscription " ++ id
    odataId := "/redfish/v1/EventService/Subscriptions/" ++ id
    destination := destination
    protocol := protocol
    context := ""
    registryPrefixes := []
    resourceTypes := []
    severities := []
    includeOriginOfCondition := false
    subordinateResources := false
    subscriptionType := "RedfishEvent"
    eventFormatType := "Event"
    statusState := "Enabled"
    statusHealth := "OK" }

/-- The decoded JSON body of a subscription POST: the request fields the
creation handler reads. -/
structure SubscriptionRequest where
  destination : String
  protocol : String
  context : String
  registryPrefixes : List String
  resourceTypes : List String
  severities : List String
  includeOriginOfCondition : Bool
  subordinateResources : Bool
  deriving Repr, DecidableEq

/-- Outcome of the subscription-creation POST. -/
inductive PostSubscriptionOutcome where
  | badRequest (message : String)
  | created (location : String) (body : EventSubscription)
  deriving Repr, DecidableEq

/-- handlePostEventSubscription (part_004, lines 1852-1896): an empty
destination is rejected with 400 Bad Request; an empty protocol defaults
to Redfish; a fresh md5-derived identifier (externalized as freshId)
names the subscription; non-empty request fields override the defaults
of NewEventSubscription; the response is 201 Created with the
subscription location — but the subscription is stored nowhere. -/
def handlePostEventSubscription (body : SubscriptionRequest) (freshId : String) :
    PostSubscriptionOutcome :=
  if body.destination = "" then
    PostSubscriptionOutcome.badRequest "Destination is required"
  else
    let protocol := if body.protocol = "" then "Redfish" else body.protocol
    let s0 := NewEventSubscription freshId body.destination protocol
    let s1 := if body.context ≠ "" then { s0 with context := body.context } else s0
    let s2 := if 0 < body.registryPrefixes.length then
        { s1 with registryPrefixes := body.registryPrefixes } else s1
    let s3 := if 0 < body.resourceTypes.length then
        { s2 with resourceTypes := body.resourceTypes } else s2
    let s4 := if 0 < body.severities.length then
        { s3 with severities := body.severities } else s3
    let s5 := { s4 with includeOriginOfCondition := body.includeOriginOfCondition,
                        subordinateResources := body.subordinateResources }
    PostSubscriptionOutcome.created s5.odataId s5

/-- Outcome of a GET on an individual subscription. -/
inductive GetSubscriptionOutcome where
  | ok (body : EventSubscription)
  | notFound
  deriving Repr, DecidableEq

/-- handleGetEventSubscription (part_004, lines 1924-1927): subscriptions
are not persisted, so the handler answers 404 Not Found for every
identifier. -/
def handleGetEventSubscription (_id : String) : GetSubscriptionOutcome :=
  GetSubscriptionOutcome.notFound

/-- A sample decoded subscription-creation body: a non-empty destination
with every optional field omitted. -/
def sampleSubscriptionRequest : SubscriptionRequest :=
  { destination := "https://example.com/events", protocol := "", context := "",
    registryPrefixes := [], resourceTypes := [], severities := [],
    includeOriginOfCondition := false, subordinateResources := false }

/-- The route patterns registered by setupRoutes (part_004, lines
106-166), in registration order. -/
def registeredRoutePatterns : List String :=
  ["/health", "/redfish/v1/$metadata", "/redfish/v1/odata",
   "/redfish/v1/SessionService/Sessions/", "/redfish/v1/SessionService/Sessions",
   "/redfish/v1/SessionService/Sessions/Members", "/redfish/v1/SessionService",
   "/redfish/v1/AccountService/Accounts/", "/redfish/v1/AccountService/Accounts",
   "/redfish/v1/AccountService/Roles/", "/redfish/v1/AccountService/Roles",
   "/redfish/v1/AccountService", "/redfish/v1/Systems/", "/redfish/v1/Systems",
   "/redfish/v1/Chassis/", "/redfish/v1/Chassis",
   "/redfish/v1/Managers/", "/redfish/v1/Managers",
   "/redfish/v1/EventService/Subscriptions/", "/redfish/v1/EventService/Subscriptions",
   "/redfish/v1/EventService/SSE", "/redfish/v1/EventService",
   "/redfish/v1/TaskService/Tasks/", "/redfish/v1/TaskService/Tasks",
   "/redfish/v1/TaskService", "/redfish/v1/Registries/", "/redfish/v1/Registries",
   "/redfish/v1/Oem/Contoso/CustomAction", "/redfish/v1/openapi.yaml",
   "/redfish", "/redfish/v1", "/redfish/v1/"]

end Redfish

namespace Redfish

/-- C1 counterexample: with the single seeded system and supplied
top = 0, skip = 0, the code returns 1 member, while the claimed formula
max 0 (min t (N - s)) yields 0; the Go code treats top = 0 as an unset
parameter, not as a request for zero members. -/
theorem applyQueryParametersToSystems_top_zero_counterexample :
    (applyQueryParametersToSystems NewComputerSystemCollection (paginationOnly 0 0)).members.length = 1 ∧
      max 0 (min 0 (1 - 0)) = 0 := by
  decide

/-- C1 (amended): pagination over any member list of size N with
non-negative top = t and skip = s returns min t (N - s) members when
s ≤ N and t ≥ 1, and 0 members when s > N; but when t = 0 the code
treats top as unset and returns all N - s remaining members.  The count
field always equals the returned length. -/
theorem applyQueryParametersToSystems_pagination (ms : List String) (t s : Nat) :
    (applyQueryParametersToSystems { members := ms, membersODataCount := ms.length }
        (paginationOnly t s)).members.length =
      (if s > ms.length then 0
       else if t = 0 then ms.length - s
       else min t (ms.length - s)) ∧
    (applyQueryParametersToSystems { members := ms, membersODataCount := ms.length }
        (paginationOnly t s)).membersODataCount =
      (applyQueryParametersToSystems { members := ms, membersODataCount := ms.length }
        (paginationOnly t s)).members.length := by
  constructor
  · simp only [applyQueryParametersToSystems, paginationOnly]
    simp only [ne_eq, not_true_eq_false, if_false, List.length_take, List.length_drop]
    split <;> split <;> rename_i h1 h2 <;> try omega
    all_goals (split <;> omega)
  · simp only [applyQueryParametersToSystems, paginationOnly]

/-- C6 counterexample: the filter string XPowerState eq 'Off' is not one
of the four recognized equality patterns, yet applying it changes the
member count of the seeded collection from 1 to 0, because matching uses
substring containment. -/
theorem applyFilterToSystems_containment_counterexample :
    ("XPowerState eq 'Off'" ∈ recognizedFilterPatterns) = False ∧
    (applyFilterToSystems NewComputerSystemCollection "XPowerState eq 'Off'").members.length = 0 ∧
    NewComputerSystemCollection.members.length = 1 := by
  decide

/-- C6 (amended): a filter string that does not contain any of the four
recognized patterns as a substring leaves the collection (member set and
count) entirely unchanged; unrecognized filters are a no-op, not an
error. -/
theorem applyFilterToSystems_noop (c : ComputerSystemCollection) (filter : String)
    (h : ∀ p ∈ recognizedFilterPatterns, strContains filter p = false) :
    applyFilterToSystems c filter = c := by
  have h1 := h _ (show "PowerState eq 'On'" ∈ recognizedFilterPatterns by decide)
  have h2 := h _ (show "PowerState eq \"On\"" ∈ recognizedFilterPatterns by decide)
  have h3 := h _ (show "PowerState eq 'Off'" ∈ recognizedFilterPatterns by decide)
  have h4 := h _ (show "PowerState eq \"Off\"" ∈ recognizedFilterPatterns by decide)
  simp [applyFilterToSystems, h1, h2, h3, h4]

/-- C6 witness: the filter string foo contains none of the recognized
patterns and leaves the seeded collection unchanged. -/
theorem applyFilterToSystems_noop_witness :
    (∀ p ∈ recognizedFilterPatterns, strContains "foo" p = false) ∧
    applyFilterToSystems NewComputerSystemCollection "foo" = NewComputerSystemCollection :=
  ⟨by decide, applyFilterToSystems_noop NewComputerSystemCollection "foo" (by decide)⟩

/-- C2: a task created by the ComputerSystem.Reset action dispatch does
start in state New, but its worker goroutine transitions it directly to
the terminal state Completed: the state trace is New, Completed, the
state Running never occurs in it, and UpdateTaskState applies the
terminal transition to a task that is still in state New (the store
imposes no only-Running-may-terminate guard). -/
theorem resetTask_skips_running :
    resetTaskStateTrace "ab12cd34" "t0" "t1" = ["New", "Completed"] ∧
    ("Running" ∈ resetTaskStateTrace "ab12cd34" "t0" "t1") = False ∧
    (NewTask "ab12cd34" "t0").taskState = "New" ∧
    (UpdateTaskState (NewTask "ab12cd34" "t0") "Completed" "t1").taskState = "Completed" := by
  decide

/-- C3: a POST of ComputerSystem.Reset whose ResetType is present but
outside the allow-list yields the InvalidParameter error with HTTP 400
and leaves the task store exactly as it was (no task is created); a POST
with ResetType omitted (decoded as the empty string) has the default On
substituted and succeeds with 202 Accepted, storing a fresh task in
state New. -/
theorem handleComputerSystemReset_parameter_gating (tasks : TaskStore)
    (resetType taskId now : String)
    (hbad : resetType ∉ validResetTypes) (hne : resetType ≠ "") :
    handleComputerSystemReset tasks resetType taskId now =
      (ResetOutcome.redfishError "InvalidParameter" 400, tasks) ∧
    handleComputerSystemReset tasks "" taskId now =
      (ResetOutcome.accepted ("/redfish/v1/TaskService/Tasks/" ++ taskId),
        (taskId, NewTask taskId now) :: tasks) ∧
    (NewTask taskId now).taskState = "New" := by
  refine ⟨?_, ?_, rfl⟩
  · simp [handleComputerSystemReset, hne, hbad]
  · simp [handleComputerSystemReset, validResetTypes]

/-- C3 witness: the value Bogus is outside the allow-list and is
rejected without touching an empty task store. -/
theorem handleComputerSystemReset_parameter_gating_witness :
    ("Bogus" ∉ validResetTypes ∧ "Bogus" ≠ "") ∧
    handleComputerSystemReset [] "Bogus" "ab12cd34" "t0" =
      (ResetOutcome.redfishError "InvalidParameter" 400, []) :=
  ⟨⟨by decide, by decide⟩,
    (handleComputerSystemReset_parameter_gating [] "Bogus" "ab12cd34" "t0"
      (by decide) (by decide)).1⟩

/-- A token filtered out of a session store can no longer be looked
up. -/
theorem lookup_filter_ne_self (l : SessionStore) (token : String) :
    (l.filter (fun p => p.1 != token)).lookup token = none := by
  induction l with
  | nil => rfl
  | cons a as ih =>
    by_cases h : a.1 = token
    · simpa [List.filter, h] using ih
    · have hb : (a.1 != token) = true := by simpa using h
      have hb2 : (token == a.1) = false := by
        simp only [beq_eq_false_iff_ne, ne_eq]
        exact fun e => h e.symm
      simp [List.filter, hb, List.lookup, ih, hb2]

/-- C4: for every username u and fresh token t, creating a session
yields a store in which validating t returns u and true; after deleting
the session for t, validating t returns the empty username and
false. -/
theorem session_roundtrip (sessions : SessionStore) (u token now expiry : String) :
    ValidateSessionToken (CreateSession sessions u token now expiry).2 token = (u, true) ∧
    ValidateSessionToken
        (DeleteSession (CreateSession sessions u token now expiry).2 token) token =
      ("", false) := by
  constructor
  · simp [ValidateSessionToken, CreateSession, List.lookup]
  · simp [ValidateSessionToken, DeleteSession, lookup_filter_ne_self]

/-- C7 counterexample: DELETE on a session path whose token has no
session (here: any token against the empty store, as after a previous
successful DELETE) returns the ResourceNotFound error with HTTP 404, not
204 No Content. -/
theorem sessionItemHandler_delete_absent_counterexample :
    (sessionItemHandler [] "DELETE" "sometoken").1 =
      SessionItemOutcome.redfishError "ResourceNotFound" 404 ∧
    (sessionItemHandler [] "DELETE" "sometoken").1 ≠ SessionItemOutcome.noContent := by
  decide

/-- C7 (amended): DELETE on a session path returns 204 and removes the
session when the token exists; when the token does not exist, including
a repetition of the very DELETE that just succeeded, it returns the
ResourceNotFound error with HTTP 404 and leaves the store unchanged.
The store-level DeleteSession itself is idempotent and error-free. -/
theorem sessionItemHandler_delete_behavior (sessions : SessionStore)
    (u token now expiry : String) :
    (sessionItemHandler (CreateSession sessions u token now expiry).2 "DELETE" token).1 =
      SessionItemOutcome.noContent ∧
    sessionItemHandler
        ((sessionItemHandler (CreateSession sessions u token now expiry).2 "DELETE" token).2)
        "DELETE" token =
      (SessionItemOutcome.redfishError "ResourceNotFound" 404,
        (sessionItemHandler (CreateSession sessions u token now expiry).2 "DELETE" token).2) ∧
    DeleteSession (DeleteSession sessions token) token = DeleteSession sessions token := by
  have hval : ValidateSessionToken (CreateSession sessions u token now expiry).2 token =
      (u, true) := by
    simp [ValidateSessionToken, CreateSession, List.lookup]
  have hdel : ∀ l : SessionStore, ValidateSessionToken (DeleteSession l token) token =
      ("", false) := by
    intro l
    simp [ValidateSessionToken, DeleteSession, lookup_filter_ne_self]
  refine ⟨?_, ?_, ?_⟩
  · simp [sessionItemHandler, hval]
  · have hstore : (sessionItemHandler (CreateSession sessions u token now expiry).2
        "DELETE" token).2 = DeleteSession (CreateSession sessions u token now expiry).2 token := by
      simp [sessionItemHandler, hval]
    rw [hstore]
    simp [sessionItemHandler, hdel]
  · simp [DeleteSession, List.filter_filter]

/-- C10: the authentication exemption compares the path against the six
public literals by exact equality, so the registered route /redfish/v1
(no trailing slash) requires authentication while /redfish/v1/ does not,
and every individual session path below the Sessions collection requires
authentication; a path is exempt exactly when it is one of the six
literals. -/
theorem requiresAuth_exemptions :
    requiresAuth "/redfish/v1" = true ∧
    requiresAuth "/redfish/v1/" = false ∧
    "/redfish/v1" ∈ registeredRoutePatterns ∧
    (∀ tok : String, requiresAuth ("/redfish/v1/SessionService/Sessions/" ++ tok) = true) ∧
    (∀ path : String, requiresAuth path = false ↔ path ∈ publicPaths) := by
  refine ⟨by decide, by decide, by decide, ?_, ?_⟩
  · intro tok
    simp only [requiresAuth]
    rw [if_neg]
    intro hmem
    have L0 : ("/redfish/v1/SessionService/Sessions/" : String).length = 36 := by decide
    have L1 : ("/health" : String).length = 7 := by decide
    have L2 : ("/redfish/v1/" : String).length = 12 := by decide
    have L3 : ("/redfish/v1/$metadata" : String).length = 21 := by decide
    have L4 : ("/redfish/v1/odata" : String).length = 17 := by decide
    have L5 : ("/redfish/v1/SessionService" : String).length = 26 := by decide
    have L6 : ("/redfish/v1/SessionService/Sessions" : String).length = 35 := by decide
    simp only [publicPaths, List.mem_cons, List.not_mem_nil, or_false] at hmem
    rcases hmem with h | h | h | h | h | h <;>
      (have hl := congrArg String.length h
       rw [String.length_append, L0] at hl
       simp only [L1, L2, L3, L4, L5, L6] at hl
       omega)
  · intro path
    simp only [requiresAuth]
    split <;> rename_i h <;> simp [h]

/-- C5: the validator of an unmodified resource is identical across
successive GETs (it is a pure function of the serialized document); a
conditional GET whose If-None-Match equals the computed validator after
stripping optional quotes, or is the wildcard, yields 304 Not Modified
with an empty body and the validator header; a conditional GET with any
other opaque token yields the full body with the validator header. -/
theorem handleGetSystem_validator_correctness (enc : ComputerSystemDoc → List Nat)
    (id tok : String)
    (h1 : normalizeETag tok ≠ normalizeETag (generateETag (enc (NewComputerSystem id))))
    (h2 : tok ≠ "*") (h3 : tok ≠ "") :
    etagHeaderOf (handleGetSystem enc id "") = etagHeaderOf (handleGetSystem enc id tok) ∧
    (∀ c : String, c ≠ "" →
      normalizeETag c = normalizeETag (generateETag (enc (NewComputerSystem id))) →
      handleGetSystem enc id c =
        GetSystemOutcome.notModified (generateETag (enc (NewComputerSystem id)))) ∧
    handleGetSystem enc id "*" =
      GetSystemOutcome.notModified (generateETag (enc (NewComputerSystem id))) ∧
    handleGetSystem enc id tok =
      GetSystemOutcome.ok (generateETag (enc (NewComputerSystem id))) (NewComputerSystem id) := by
  have htok : handleGetSystem enc id tok =
      GetSystemOutcome.ok (generateETag (enc (NewComputerSystem id))) (NewComputerSystem id) := by
    simp only [handleGetSystem]
    rw [if_pos h3, if_neg]
    rintro (hc | hc)
    · exact h1 hc
    · exact h2 hc
  have hempty : handleGetSystem enc id "" =
      GetSystemOutcome.ok (generateETag (enc (NewComputerSystem id))) (NewComputerSystem id) := by
    simp [handleGetSystem]
  refine ⟨?_, ?_, ?_, htok⟩
  · rw [htok, hempty]
  · intro c hc hceq
    simp only [handleGetSystem]
    rw [if_pos hc, if_pos (Or.inl hceq)]
  · simp only [handleGetSystem]
    rw [if_pos (by decide : ("*" : String) ≠ "")]
    simp

/-- C5 witness: with the empty serialization, identifier 1 and the
opaque token zzz (which normalizes to itself and differs from the
computed validator), the handler returns the full body with the
validator header. -/
theorem handleGetSystem_validator_correctness_witness :
    (normalizeETag "zzz" ≠ normalizeETag (generateETag []) ∧
      ("zzz" : String) ≠ "*" ∧ ("zzz" : String) ≠ "") ∧
    handleGetSystem (fun _ => []) "1" "zzz" =
      GetSystemOutcome.ok (generateETag []) (NewComputerSystem "1") :=
  ⟨⟨by decide, by decide, by decide⟩,
    (handleGetSystem_validator_correctness (fun _ => []) "1" "zzz" (by decide) (by decide)
      (by decide)).2.2.2⟩

/-- C9 counterexample: the identifier 2 is not a member of the seeded
Systems collection, yet GET of that system answers 200 with a fabricated
document whose Id field is 2, and in particular not with any Redfish
error (there is no ResourceNotFound branch in the handler). -/
theorem handleGetSystem_unknown_id_counterexample :
    (("/redfish/v1/Systems/2" ∈ NewComputerSystemCollection.members) = False) ∧
    handleGetSystem (fun _ => []) "2" "" =
      GetSystemOutcome.ok (generateETag []) (NewComputerSystem "2") ∧
    (NewComputerSystem "2").id = "2" ∧
    (∀ code : String, ∀ status : Nat,
      handleGetSystem (fun _ => []) "2" "" ≠ GetSystemOutcome.redfishError code status) := by
  refine ⟨by decide, by decide, by decide, ?_⟩
  intro code status h
  rw [show handleGetSystem (fun _ => []) "2" "" =
      GetSystemOutcome.ok (generateETag []) (NewComputerSystem "2") from by decide] at h
  exact GetSystemOutcome.noConfusion h

/-- C9 (amended): a GET of an individual computer system performs no
membership check: for every identifier, known or not, it fabricates and
returns the projected document for that identifier with its validator
header, never a ResourceNotFound error. -/
theorem handleGetSystem_fabricates (enc : ComputerSystemDoc → List Nat) (id : String) :
    handleGetSystem enc id "" =
      GetSystemOutcome.ok (generateETag (enc (NewComputerSystem id))) (NewComputerSystem id) ∧
    (NewComputerSystem id).id = id :=
  ⟨by simp [handleGetSystem], rfl⟩

/-- C8: a POST with a non-empty destination creates a subscription
(with the Redfish protocol default substituted when the protocol is
omitted), a POST with an empty destination is rejected, and a GET of any
subscription identifier — in particular the one just created — answers
not-found: created subscriptions are not retained. -/
theorem eventSubscription_not_retained (body : SubscriptionRequest) (freshId : String)
    (hdest : body.destination ≠ "") :
    (∃ loc : String, ∃ sub : EventSubscription,
      handlePostEventSubscription body freshId =
        PostSubscriptionOutcome.created loc sub ∧
      loc = sub.odataId ∧
      sub.destination = body.destination ∧
      sub.protocol = (if body.protocol = "" then "Redfish" else body.protocol) ∧
      sub.id = freshId ∧
      handleGetEventSubscription sub.id = GetSubscriptionOutcome.notFound) ∧
    handlePostEventSubscription { body with destination := "" } freshId =
      PostSubscriptionOutcome.badRequest "Destination is required" := by
  constructor
  · simp only [handlePostEventSubscription, if_neg hdest]
    refine ⟨_, _, rfl, ?_, ?_, ?_, ?_, rfl⟩ <;>
      ((repeat' split) <;> rfl)
  · simp [handlePostEventSubscription]

/-- C8 witness: the sample body with destination
https-example-com-events and omitted protocol yields a created
subscription with protocol Redfish, unreachable by GET. -/
theorem eventSubscription_not_retained_witness :
    sampleSubscriptionRequest.destination ≠ "" ∧
    ((∃ loc : String, ∃ sub : EventSubscription,
      handlePostEventSubscription sampleSubscriptionRequest "ab12cd34" =
        PostSubscriptionOutcome.created loc sub ∧
      loc = sub.odataId ∧
      sub.destination = sampleSubscriptionRequest.destination ∧
      sub.protocol = (if sampleSubscriptionRequest.protocol = "" then "Redfish"
        else sampleSubscriptionRequest.protocol) ∧
      sub.id = "ab12cd34" ∧
      handleGetEventSubscription sub.id = GetSubscriptionOutcome.notFound) ∧
    handlePostEventSubscription { sampleSubscriptionRequest with destination := "" } "ab12cd34" =
      PostSubscriptionOutcome.badRequest "Destination is required") :=
  ⟨by decide, eventSubscription_not_retained sampleSubscriptionRequest "ab12cd34" (by decide)⟩

end Redfish
